import Mathlib

/-!
# CloudVault — shallow embedding of the hierarchical real-time sync core

This file embeds, in Lean, the state and write operations of the two React
context modules `FileContext.tsx` and `NotesContext.tsx` (the SyncEngine /
BlobCoordinator / FolderNavigator / ChecklistSubsystem core of the
repository), and proves or refutes the frozen specification claims about
them.

Modelling conventions:
* Firestore documents become records in a `List`; the collection keeps
  insertion order and `find?` models lookup by document id.
* Asynchronous operations become pure functions from their inputs (including
  the ambient `currentUser` captured by each closure and the responses of
  the external stores, passed in as environment values) to a triple
  `(OpResult, new collection, trace of remote calls)`.
* `OpResult.resolved` is a promise that resolves; `OpResult.rejected e` is a
  promise rejected with error `e`.  The trace records every remote call the
  operation issues, in order, so "no remote call is attempted" is the
  statement that the trace is empty.
-/

namespace CloudVault

/-- Model of a Firestore `Timestamp`; `millis` is `toMillis()`. -/
structure Timestamp where
  millis : Nat
deriving DecidableEq, Repr

/-- The `type` field of a `FileItem` (`'document' | 'image' | 'video' | 'folder'`). -/
inductive FileType
  | document
  | image
  | video
  | folder
deriving DecidableEq, Repr

/-- The `FileItem` interface of `FileContext.tsx`. -/
structure FileItem where
  id : String
  name : String
  type : FileType
  url : Option String
  content : Option String
  createdAt : Timestamp
  updatedAt : Timestamp
  userId : String
  parentId : Option String
  size : Option Nat
  isStarred : Bool
  isShared : Bool
  sharedWith : Option (List String)
  thumbnailUrl : Option String
deriving DecidableEq, Repr

/-- The `ChecklistItem` interface of `NotesContext.tsx`. -/
structure ChecklistItem where
  id : String
  text : String
  isCompleted : Bool
deriving DecidableEq, Repr

/-- The `viewMode` field (`'grid' | 'list'`). -/
inductive ViewMode
  | grid
  | list
deriving DecidableEq, Repr

/-- The `Note` interface of `NotesContext.tsx`. -/
structure NoteDoc where
  id : String
  title : String
  content : String
  createdAt : Timestamp
  updatedAt : Timestamp
  userId : String
  color : String
  labels : List String
  isPinned : Bool
  aiSummary : Option String
  aiSuggestions : Option (List String)
  viewMode : ViewMode
  checklistItems : List ChecklistItem
deriving DecidableEq, Repr

/-- Errors surfaced by the external stores. -/
inductive RemoteError
  | notFound
  | storageFailure (code : String)
deriving DecidableEq, Repr

/-- Outcome of an `async` operation: the promise resolves or rejects. -/
inductive OpResult
  | resolved
  | rejected (e : RemoteError)
deriving DecidableEq, Repr

/-- One remote call issued by an operation (blob store or record store). -/
inductive RemoteEv
  | blobPut (path : String)
  | blobGetUrl (path : String)
  | blobDelete (path : String)
  | dbInsert (coll : String)
  | dbUpdate (coll : String) (id : String)
  | dbDelete (coll : String) (id : String)
deriving DecidableEq, Repr

/-- Firestore `updateDoc`: merge-update the document with the given id, or
reject with not-found when no such document exists. -/
def updateById (getId : α → String) (store : List α) (id : String) (upd : α → α) :
    OpResult × List α :=
  if store.any (fun r => getId r == id) then
    (OpResult.resolved, store.map (fun r => if getId r == id then upd r else r))
  else
    (OpResult.rejected RemoteError.notFound, store)

/-- One breadcrumb entry `{ id, name }`. -/
structure Crumb where
  id : String
  name : String
deriving DecidableEq, Repr

/-- The synthetic root entry `{ id: 'root', name: 'My Drive' }`. -/
def rootCrumb : Crumb := ⟨"root", "My Drive"⟩

/-- Local state of `FileProvider`: `files`, `currentFolder`, `breadcrumbs`. -/
structure FileProviderState where
  files : List FileItem
  currentFolder : Option String
  breadcrumbs : List Crumb
deriving DecidableEq, Repr

/-- Initial `FileProvider` state (`useState` initial values). -/
def initialFileProviderState : FileProviderState :=
  { files := [], currentFolder := none, breadcrumbs := [rootCrumb] }

/-- The `useEffect` in `FileProvider` on an identity transition: when
`currentUser` is null the effect runs `setFiles([])` and returns; nothing
else in the state is touched.  With an identity present the effect opens the
subscription; the local collection is only changed by later pushes. -/
def filesIdentityEffect (currentUser : Option String) (s : FileProviderState) :
    FileProviderState :=
  match currentUser with
  | none => { s with files := [] }
  | some _ => s

/-- The `onSnapshot` callback of `FileProvider`: the pushed result set
replaces the entire local collection. -/
def filesOnSnapshot (push : List FileItem) (s : FileProviderState) : FileProviderState :=
  { s with files := push }

/-- Upload environment: values supplied by the clock, the id generator and
the two external stores during one `uploadFile` call. -/
structure UploadEnv where
  nowMs : Nat
  now : Timestamp
  putResult : Except RemoteError Unit
  urlResult : Except RemoteError String
  insertResult : Except RemoteError String
deriving Repr

/-- The uploaded `File` object: `name`, `type` (MIME) and `size`. -/
structure UploadInput where
  name : String
  mimeType : String
  size : Nat
deriving DecidableEq, Repr

/-- Kind classification in `uploadFile`: MIME `image/*` → image,
`video/*` → video, anything else → document. -/
def fileTypeOfMime (mime : String) : FileType :=
  if mime.startsWith "image/" then FileType.image
  else if mime.startsWith "video/" then FileType.video
  else FileType.document

/-- The storage path `users/${uid}/${Date.now()}_${file.name}`. -/
def uploadPath (uid : String) (ms : Nat) (name : String) : String :=
  "users/" ++ uid ++ "/" ++ toString ms ++ "_" ++ name

/-- JS `a || b` on the two nullable parent-folder values. -/
def jsOr (a b : Option String) : Option String :=
  match a with
  | some p => some p
  | none => b

/-- Function `uploadFile` of `FileContext.tsx`: bail out (resolving) without a remote
call when unauthenticated; otherwise put the bytes to the blob store, get the
download URL, then insert the `FileItem` document; any remote failure is
re-thrown, so the promise rejects and later steps never run. -/
def uploadFile (currentUser : Option String) (currentFolder : Option String)
    (env : UploadEnv) (store : List FileItem) (input : UploadInput)
    (parentId : Option String) : OpResult × List FileItem × List RemoteEv :=
  match currentUser with
  | none => (OpResult.resolved, store, [])
  | some uid =>
    let path := uploadPath uid env.nowMs input.name
    match env.putResult with
    | Except.error e => (OpResult.rejected e, store, [RemoteEv.blobPut path])
    | Except.ok _ =>
      match env.urlResult with
      | Except.error e =>
        (OpResult.rejected e, store, [RemoteEv.blobPut path, RemoteEv.blobGetUrl path])
      | Except.ok url =>
        let evs := [RemoteEv.blobPut path, RemoteEv.blobGetUrl path,
          RemoteEv.dbInsert "files"]
        match env.insertResult with
        | Except.error e => (OpResult.rejected e, store, evs)
        | Except.ok newId =>
          let fileDoc : FileItem :=
            { id := newId
              name := input.name
              type := fileTypeOfMime input.mimeType
              url := some url
              content := none
              createdAt := env.now
              updatedAt := env.now
              userId := uid
              parentId := jsOr parentId currentFolder
              size := some input.size
              isStarred := false
              isShared := false
              sharedWith := none
              thumbnailUrl := none }
          (OpResult.resolved, store ++ [fileDoc], evs)

/-- Insert environment for `createFolder` / `createDocument` / `addNote`:
the clock value and the record store's response to `addDoc`. -/
structure InsertEnv where
  now : Timestamp
  insertResult : Except RemoteError String
deriving Repr

/-- Function `createFolder` of `FileContext.tsx`. -/
def createFolder (currentUser : Option String) (currentFolder : Option String)
    (env : InsertEnv) (store : List FileItem) (name : String)
    (parentId : Option String) : OpResult × List FileItem × List RemoteEv :=
  match currentUser with
  | none => (OpResult.resolved, store, [])
  | some uid =>
    match env.insertResult with
    | Except.error e => (OpResult.rejected e, store, [RemoteEv.dbInsert "files"])
    | Except.ok newId =>
      let folderDoc : FileItem :=
        { id := newId
          name := name
          type := FileType.folder
          url := none
          content := none
          createdAt := env.now
          updatedAt := env.now
          userId := uid
          parentId := jsOr parentId currentFolder
          size := none
          isStarred := false
          isShared := false
          sharedWith := none
          thumbnailUrl := none }
      (OpResult.resolved, store ++ [folderDoc], [RemoteEv.dbInsert "files"])

/-- Function `createDocument` of `FileContext.tsx`. -/
def createDocument (currentUser : Option String) (currentFolder : Option String)
    (env : InsertEnv) (store : List FileItem) (name : String) (content : String)
    (parentId : Option String) : OpResult × List FileItem × List RemoteEv :=
  match currentUser with
  | none => (OpResult.resolved, store, [])
  | some uid =>
    match env.insertResult with
    | Except.error e => (OpResult.rejected e, store, [RemoteEv.dbInsert "files"])
    | Except.ok newId =>
      let docDoc : FileItem :=
        { id := newId
          name := name
          type := FileType.document
          url := none
          content := some content
          createdAt := env.now
          updatedAt := env.now
          userId := uid
          parentId := jsOr parentId currentFolder
          size := none
          isStarred := false
          isShared := false
          sharedWith := none
          thumbnailUrl := none }
      (OpResult.resolved, store ++ [docDoc], [RemoteEv.dbInsert "files"])

/-- Function `updateDocument` of `FileContext.tsx`: no identity check in the source
(`_currentUser` is captured by the closure but never read); it issues the
remote `updateDoc` directly. -/
def updateDocument (_currentUser : Option String) (store : List FileItem)
    (id : String) (content : String) (now : Timestamp) :
    OpResult × List FileItem × List RemoteEv :=
  let r := updateById FileItem.id store id
    (fun f => { f with content := some content, updatedAt := now })
  (r.1, r.2, [RemoteEv.dbUpdate "files" id])

/-- Model of the browser builtin hex-digit reading inside
`decodeURIComponent`. -/
def hexDigitVal (c : Char) : Option Nat :=
  let n := c.toNat
  if 48 ≤ n ∧ n ≤ 57 then some (n - 48)
  else if 65 ≤ n ∧ n ≤ 70 then some (n - 55)
  else if 97 ≤ n ∧ n ≤ 102 then some (n - 87)
  else none

/-- Model of the browser builtin `decodeURIComponent` on the character list:
each valid `%XY` escape becomes the character with code `0xXY`. -/
def percentDecodeChars : List Char → List Char
  | '%' :: h :: l :: rest =>
    match hexDigitVal h, hexDigitVal l with
    | some hv, some lv => Char.ofNat (16 * hv + lv) :: percentDecodeChars rest
    | _, _ => '%' :: percentDecodeChars (h :: l :: rest)
  | c :: rest => c :: percentDecodeChars rest
  | [] => []

/-- Model of `decodeURIComponent` on strings (model of the browser builtin). -/
def decodeURIComponentM (s : String) : String :=
  String.mk (percentDecodeChars s.data)

/-- Model of `new URL(url).pathname`: everything from the first slash after
the `scheme://host` part. -/
def pathnameOf (url : String) : String :=
  match url.splitOn "//" with
  | _ :: hostAndPath :: _ => String.mk (hostAndPath.data.dropWhile (fun c => c ≠ '/'))
  | _ => url

/-- Storage-path recovery in `deleteFile`:
`decodeURIComponent(urlObj.pathname.split('/o/')[1])`, skipped when the
split yields nothing truthy. -/
def storagePathFromUrl (url : String) : Option String :=
  match (pathnameOf url).splitOn "/o/" with
  | _ :: seg :: _ => if seg.isEmpty then none else some (decodeURIComponentM seg)
  | _ => none

/-- Function `deleteFile` of `FileContext.tsx`: look the id up in the local
collection (silently resolving when absent), delete the document, then — when
the record carries a URL and a storage path can be recovered from it — delete
the blob, with any blob-side error swallowed by the `try/catch`. -/
def deleteFile (_currentUser : Option String) (files : List FileItem)
    (store : List FileItem) (id : String) : OpResult × List FileItem × List RemoteEv :=
  match files.find? (fun f => f.id == id) with
  | none => (OpResult.resolved, store, [])
  | some f =>
    let store' := store.filter (fun r => r.id != id)
    let blobEvs : List RemoteEv :=
      match f.url with
      | none => []
      | some url =>
        match storagePathFromUrl url with
        | none => []
        | some p => [RemoteEv.blobDelete p]
    (OpResult.resolved, store', RemoteEv.dbDelete "files" id :: blobEvs)

/-- Function `navigateToFolder` of `FileContext.tsx`: always set `currentFolder`;
rebuild the breadcrumb trail from the currently loaded collection — root
alone for null, otherwise `[root, (parent if found), folder]` when the target
is found, and leave the trail untouched when it is not. -/
def navigateToFolder (s : FileProviderState) (folderId : Option String) :
    FileProviderState :=
  let s1 := { s with currentFolder := folderId }
  match folderId with
  | none => { s1 with breadcrumbs := [rootCrumb] }
  | some fid =>
    match s.files.find? (fun f => f.id == fid) with
    | none => s1
    | some folder =>
      let withParent : List Crumb :=
        match folder.parentId with
        | none => [rootCrumb]
        | some pid =>
          match s.files.find? (fun f => f.id == pid) with
          | none => [rootCrumb]
          | some parent => [rootCrumb, ⟨parent.id, parent.name⟩]
      { s1 with breadcrumbs := withParent ++ [⟨folder.id, folder.name⟩] }

/-- Function `toggleStar` of `FileContext.tsx`: read `isStarred` from the local
collection (silently resolving when the id is absent there) and write the
negation; no identity check in the source. -/
def toggleStar (_currentUser : Option String) (files : List FileItem)
    (store : List FileItem) (id : String) : OpResult × List FileItem × List RemoteEv :=
  match files.find? (fun f => f.id == id) with
  | none => (OpResult.resolved, store, [])
  | some f =>
    let r := updateById FileItem.id store id
      (fun x => { x with isStarred := !f.isStarred })
    (r.1, r.2, [RemoteEv.dbUpdate "files" id])

/-- Function `shareFile` of `FileContext.tsx`: write `isShared := true` and
`sharedWith := [userEmail]` (the literal one-element array); no identity
check and no read of the previous `sharedWith` in the source. -/
def shareFile (_currentUser : Option String) (store : List FileItem)
    (id : String) (userEmail : String) : OpResult × List FileItem × List RemoteEv :=
  let r := updateById FileItem.id store id
    (fun f => { f with isShared := true, sharedWith := some [userEmail] })
  (r.1, r.2, [RemoteEv.dbUpdate "files" id])

/-- Local state of `NotesProvider`: the ordered collection and the view mode. -/
structure NotesState where
  notes : List NoteDoc
  viewMode : ViewMode
deriving DecidableEq, Repr

/-- Initial `NotesProvider` state. -/
def initialNotesState : NotesState := { notes := [], viewMode := ViewMode.grid }

/-- The sort comparator of the `NotesProvider` `onSnapshot` callback as a
"may precede" Boolean relation: pinned notes first, ties broken by the more
recent `updatedAt`. -/
def noteLE (a b : NoteDoc) : Bool :=
  if a.isPinned != b.isPinned then a.isPinned
  else decide (b.updatedAt.millis ≤ a.updatedAt.millis)

/-- The `onSnapshot` callback of `NotesProvider`: the pushed result set,
sorted client-side by `noteLE`, replaces the entire local collection. -/
def notesOnSnapshot (push : List NoteDoc) (s : NotesState) : NotesState :=
  { s with notes := push.mergeSort noteLE }

/-- The `useEffect` in `NotesProvider` on an identity transition: when
`currentUser` is null the effect runs `setNotes([])` and returns. -/
def notesIdentityEffect (currentUser : Option String) (s : NotesState) : NotesState :=
  match currentUser with
  | none => { s with notes := [] }
  | some _ => s

/-- Function `addNote` of `NotesContext.tsx` (JS default arguments
`color = '#ffffff'`, `labels = []` are applied by callers). -/
def addNote (currentUser : Option String) (env : InsertEnv) (store : List NoteDoc)
    (title : String) (content : String) (color : String) (labels : List String) :
    OpResult × List NoteDoc × List RemoteEv :=
  match currentUser with
  | none => (OpResult.resolved, store, [])
  | some uid =>
    match env.insertResult with
    | Except.error e => (OpResult.rejected e, store, [RemoteEv.dbInsert "notes"])
    | Except.ok newId =>
      let noteDoc : NoteDoc :=
        { id := newId
          title := title
          content := content
          createdAt := env.now
          updatedAt := env.now
          userId := uid
          color := color
          labels := labels
          isPinned := false
          aiSummary := none
          aiSuggestions := none
          viewMode := ViewMode.grid
          checklistItems := [] }
      (OpResult.resolved, store ++ [noteDoc], [RemoteEv.dbInsert "notes"])

/-- The merge-update `updateNote` performs on the target document: `title`,
`content` and a fresh `updatedAt` always; `color`, `labels`, `isPinned` only
when supplied.  Every other field is absent from `updateData` and therefore
untouched by the Firestore merge. -/
def updateNoteFields (title : String) (content : String) (color : Option String)
    (labels : Option (List String)) (isPinned : Option Bool) (now : Timestamp)
    (n : NoteDoc) : NoteDoc :=
  { n with
    title := title
    content := content
    updatedAt := now
    color := color.getD n.color
    labels := labels.getD n.labels
    isPinned := isPinned.getD n.isPinned }

/-- Function `updateNote` of `NotesContext.tsx`: no identity check; issues the remote
`updateDoc` with exactly the fields of `updateNoteFields`. -/
def updateNote (_currentUser : Option String) (store : List NoteDoc) (id : String)
    (title : String) (content : String) (color : Option String)
    (labels : Option (List String)) (isPinned : Option Bool) (now : Timestamp) :
    OpResult × List NoteDoc × List RemoteEv :=
  let r := updateById NoteDoc.id store id
    (updateNoteFields title content color labels isPinned now)
  (r.1, r.2, [RemoteEv.dbUpdate "notes" id])

/-- Function `deleteNote` of `NotesContext.tsx`: no identity check; `deleteDoc`
resolves whether or not the id exists. -/
def deleteNote (_currentUser : Option String) (store : List NoteDoc) (id : String) :
    OpResult × List NoteDoc × List RemoteEv :=
  (OpResult.resolved, store.filter (fun n => n.id != id), [RemoteEv.dbDelete "notes" id])

/-- Function `addChecklistItem` of `NotesContext.tsx`: the body is empty (only the
comment `// Implementation needed`); the promise resolves, no remote call is
made and no store changes. -/
def addChecklistItem (_currentUser : Option String) (store : List NoteDoc)
    (_noteId : String) (_text : String) : OpResult × List NoteDoc × List RemoteEv :=
  (OpResult.resolved, store, [])

/-! ### Concrete sample records used by witnesses and counterexamples -/

/-- A concrete image record whose `sharedWith` already holds one entry. -/
def samplePhoto : FileItem :=
  { id := "f1"
    name := "photo.png"
    type := FileType.image
    url := some "https://firebasestorage.googleapis.com/v0/b/demo.app/o/users%2Fu1%2F7_photo.png"
    content := none
    createdAt := ⟨1⟩
    updatedAt := ⟨2⟩
    userId := "u1"
    parentId := none
    size := some 4
    isStarred := false
    isShared := true
    sharedWith := some ["alice"]
    thumbnailUrl := none }

/-- A concrete starred text document. -/
def sampleDoc : FileItem :=
  { id := "d1"
    name := "notes.txt"
    type := FileType.document
    url := none
    content := some "old"
    createdAt := ⟨1⟩
    updatedAt := ⟨1⟩
    userId := "u1"
    parentId := none
    size := none
    isStarred := true
    isShared := false
    sharedWith := none
    thumbnailUrl := none }

/-- A concrete root-level folder. -/
def sampleFolderA : FileItem :=
  { id := "fa"
    name := "Projects"
    type := FileType.folder
    url := none
    content := none
    createdAt := ⟨1⟩
    updatedAt := ⟨1⟩
    userId := "u1"
    parentId := none
    size := none
    isStarred := false
    isShared := false
    sharedWith := none
    thumbnailUrl := none }

/-- A concrete folder nested under `sampleFolderA`. -/
def sampleFolderB : FileItem :=
  { sampleFolderA with id := "fb", name := "Designs", parentId := some "fa" }

/-- A concrete unpinned note holding one checklist item. -/
def sampleNote : NoteDoc :=
  { id := "n1"
    title := "t"
    content := "c"
    createdAt := ⟨1⟩
    updatedAt := ⟨5⟩
    userId := "u1"
    color := "#ffffff"
    labels := []
    isPinned := false
    aiSummary := none
    aiSuggestions := none
    viewMode := ViewMode.grid
    checklistItems := [⟨"a", "x", false⟩] }

/-- A concrete pinned note with an older `updatedAt` than `sampleNote`. -/
def pinnedNote : NoteDoc :=
  { sampleNote with id := "n2", isPinned := true, updatedAt := ⟨3⟩ }

/-- An upload environment whose blob-store put fails. -/
def sampleFailEnv : UploadEnv :=
  { nowMs := 7
    now := ⟨7⟩
    putResult := Except.error (RemoteError.storageFailure "storage/unknown")
    urlResult := Except.ok ""
    insertResult := Except.ok "f9" }

/-- An insert environment whose `addDoc` succeeds. -/
def sampleInsertEnv : InsertEnv := { now := ⟨7⟩, insertResult := Except.ok "f9" }

/-- A concrete `File` upload input. -/
def samplePng : UploadInput := { name := "photo.png", mimeType := "image/png", size := 4 }

/-- A provider state sitting inside `sampleFolderA` with loaded files. -/
def navigatedState : FileProviderState :=
  { files := [sampleFolderA, sampleFolderB]
    currentFolder := some "fa"
    breadcrumbs := [rootCrumb, ⟨"fa", "Projects"⟩] }

/-! ### Helper lemmas -/

/-- Lemma about `updateById` on an id whose document is first found as `f`: the operation
resolves and the updated collection's lookup returns `upd f`, provided `upd`
keeps the id. -/
theorem find?_updateById (getId : α → String) (store : List α) (id : String)
    (upd : α → α) (hpres : ∀ x, getId (upd x) = getId x) (f : α)
    (hf : store.find? (fun r => getId r == id) = some f) :
    (updateById getId store id upd).1 = OpResult.resolved ∧
    (updateById getId store id upd).2.find? (fun r => getId r == id) = some (upd f) := by
  have hpf : (getId f == id) = true := by
    have := List.find?_some hf
    simpa using this
  have hany : store.any (fun r => getId r == id) = true :=
    List.any_eq_true.mpr ⟨f, List.mem_of_find?_eq_some hf, by simpa using hpf⟩
  have hpf' : getId f = id := by simpa using hpf
  have hcomp : ((fun r => getId r == id) ∘ (fun r => if getId r == id then upd r else r))
      = fun r => getId r == id := by
    funext r
    by_cases h : getId r = id
    · simp [h, hpres]
    · simp [h]
  constructor
  · simp [updateById, hany]
  · simp only [updateById, hany, if_true]
    rw [List.find?_map, hcomp, hf]
    simp [hpf']

/-- Folding a sequence of full-replace pushes over the files engine leaves
exactly the last pushed result set. -/
theorem files_foldl_pushes (l : List (List FileItem)) (s : FileProviderState)
    (h : l ≠ []) :
    (l.foldl (fun st p => filesOnSnapshot p st) s).files = l.getLast h := by
  induction l generalizing s with
  | nil => exact absurd rfl h
  | cons a t ih =>
    cases t with
    | nil => simp [filesOnSnapshot]
    | cons b t2 =>
      rw [List.foldl_cons, List.getLast_cons (by simp)]
      exact ih _ (by simp)

/-- Folding a sequence of full-replace pushes over the notes engine leaves a
permutation (the client-side sort) of the last pushed result set. -/
theorem notes_foldl_pushes (l : List (List NoteDoc)) (s : NotesState) (h : l ≠ []) :
    ((l.foldl (fun st p => notesOnSnapshot p st) s).notes).Perm (l.getLast h) := by
  induction l generalizing s with
  | nil => exact absurd rfl h
  | cons a t ih =>
    cases t with
    | nil =>
      simp only [List.foldl_cons, List.foldl_nil, List.getLast_singleton]
      exact List.mergeSort_perm a noteLE
    | cons b t2 =>
      rw [List.foldl_cons, List.getLast_cons (by simp)]
      exact ih _ (by simp)

/-- The notes comparator is transitive. -/
theorem noteLE_trans (a b c : NoteDoc) (hab : noteLE a b) (hbc : noteLE b c) :
    noteLE a c := by
  simp only [noteLE] at *
  cases hpa : a.isPinned <;> cases hpb : b.isPinned <;> cases hpc : c.isPinned <;>
    simp [hpa, hpb, hpc] at * <;> omega

/-- The notes comparator is total. -/
theorem noteLE_total (a b : NoteDoc) : noteLE a b || noteLE b a := by
  simp only [noteLE]
  cases hpa : a.isPinned <;> cases hpb : b.isPinned <;> simp [hpa, hpb] <;> omega

/-! ### Claim theorems -/

/-- C1: `uploadFile` puts the bytes to the blob store strictly before the
metadata insert — when the put fails, the whole operation rejects with that
blob-store error, the record collection is unchanged, and the remote trace
holds only the failed put (in particular, no insert was attempted). -/
theorem uploadFile_blob_before_insert (uid : String) (folder : Option String)
    (env : UploadEnv) (store : List FileItem) (input : UploadInput)
    (pid : Option String) (e : RemoteError) (hput : env.putResult = Except.error e) :
    uploadFile (some uid) folder env store input pid =
      (OpResult.rejected e, store,
        [RemoteEv.blobPut (uploadPath uid env.nowMs input.name)]) := by
  simp [uploadFile, hput]

/-- C1 witness: the concrete spec scenario
`uploadFile(bytes, "photo.png", "image/png")` with a failing blob put. -/
theorem uploadFile_blob_before_insert_witness :
    sampleFailEnv.putResult =
      Except.error (RemoteError.storageFailure "storage/unknown") ∧
    uploadFile (some "u1") none sampleFailEnv [sampleDoc] samplePng none =
      (OpResult.rejected (RemoteError.storageFailure "storage/unknown"), [sampleDoc],
        [RemoteEv.blobPut (uploadPath "u1" sampleFailEnv.nowMs samplePng.name)]) :=
  ⟨rfl, uploadFile_blob_before_insert "u1" none sampleFailEnv [sampleDoc] samplePng none
    (RemoteError.storageFailure "storage/unknown") rfl⟩

/-- C2: over any nonempty sequence of subscription pushes, the engine's local
collection after each push is exactly the pushed result set — for the files
engine the list itself, for the notes engine a permutation of it (the
client-side sort), so no entry from an earlier push or predicate epoch
survives. -/
theorem sync_push_replaces (ps : List (List FileItem)) (s : FileProviderState)
    (qs : List (List NoteDoc)) (t : NotesState) (h1 : ps ≠ []) (h2 : qs ≠ []) :
    (ps.foldl (fun st p => filesOnSnapshot p st) s).files = ps.getLast h1 ∧
    ((qs.foldl (fun st p => notesOnSnapshot p st) t).notes).Perm (qs.getLast h2) :=
  ⟨files_foldl_pushes ps s h1, notes_foldl_pushes qs t h2⟩

/-- C2 witness: a two-push file sequence and a one-push note sequence on
concrete states. -/
theorem sync_push_replaces_witness :
    ([[sampleDoc], [samplePhoto]] ≠ ([] : List (List FileItem))) ∧
    ([[sampleNote, pinnedNote]] ≠ ([] : List (List NoteDoc))) ∧
    (([[sampleDoc], [samplePhoto]].foldl (fun st p => filesOnSnapshot p st)
      navigatedState).files = [samplePhoto]) ∧
    ((([[sampleNote, pinnedNote]].foldl (fun st p => notesOnSnapshot p st)
      initialNotesState).notes).Perm [sampleNote, pinnedNote]) := by
  refine ⟨by simp, by simp, ?_, ?_⟩
  · exact (sync_push_replaces [[sampleDoc], [samplePhoto]] navigatedState
      [[sampleNote, pinnedNote]] initialNotesState (by simp) (by simp)).1
  · exact (sync_push_replaces [[sampleDoc], [samplePhoto]] navigatedState
      [[sampleNote, pinnedNote]] initialNotesState (by simp) (by simp)).2

/-- C6 (code bug): `addChecklistItem` is an unimplemented stub — on a
non-empty text it resolves without appending anything and without a remote
call, and a whitespace-only text is not rejected either, contradicting the
documented checklist behaviour. -/
theorem addChecklistItem_stub_noop :
    addChecklistItem (some "u1") [sampleNote] "n1" "buy milk" =
      (OpResult.resolved, [sampleNote], []) ∧
    addChecklistItem (some "u1") [sampleNote] "n1" "   " =
      (OpResult.resolved, [sampleNote], []) :=
  ⟨rfl, rfl⟩

/-- C7 counterexample: on a transition of the identity to None, the effect
clears the file collection but the current-folder id and breadcrumb trail
keep their non-root values instead of resetting. -/
theorem identity_none_counterexample :
    filesIdentityEffect none navigatedState =
      { files := []
        currentFolder := some "fa"
        breadcrumbs := [rootCrumb, ⟨"fa", "Projects"⟩] } ∧
    (filesIdentityEffect none navigatedState).currentFolder ≠
      initialFileProviderState.currentFolder ∧
    (filesIdentityEffect none navigatedState).breadcrumbs ≠
      initialFileProviderState.breadcrumbs := by
  refine ⟨rfl, by decide, by decide⟩

/-- C7 (amended): a transition of the identity to None empties the local
file collection and touches nothing else — `currentFolder` and the
breadcrumb trail retain their previous values. -/
theorem identity_none_clears_only_files (s : FileProviderState) :
    (filesIdentityEffect none s).files = [] ∧
    (filesIdentityEffect none s).currentFolder = s.currentFolder ∧
    (filesIdentityEffect none s).breadcrumbs = s.breadcrumbs :=
  ⟨rfl, rfl, rfl⟩

/-- C8: after every push to the notes engine the local collection is
pairwise ordered with pinned notes before unpinned ones and, within equal
pinned state, more recently updated notes first. -/
theorem notes_push_ordering (push : List NoteDoc) (s : NotesState) :
    ((notesOnSnapshot push s).notes).Pairwise (fun a b =>
      (b.isPinned = true → a.isPinned = true) ∧
      (a.isPinned = b.isPinned → b.updatedAt.millis ≤ a.updatedAt.millis)) := by
  have hs := @List.sorted_mergeSort NoteDoc noteLE noteLE_trans noteLE_total push
  refine hs.imp ?_
  intro a b hab
  simp only [noteLE] at hab
  cases hpa : a.isPinned <;> cases hpb : b.isPinned <;>
    simp [hpa, hpb] at hab ⊢ <;> omega

/-- C3 counterexample: with no current identity, `updateDocument` still
issues the remote update (and resolves when the id exists remotely), and
`uploadFile` resolves silently instead of rejecting — neither fails fast
with an auth error. -/
theorem write_ops_auth_counterexample :
    (updateDocument none [sampleDoc] "d1" "new text" ⟨9⟩).2.2 =
      [RemoteEv.dbUpdate "files" "d1"] ∧
    (updateDocument none [sampleDoc] "d1" "new text" ⟨9⟩).1 = OpResult.resolved ∧
    uploadFile none none sampleFailEnv [] samplePng none =
      (OpResult.resolved, [], []) := by
  refine ⟨rfl, by decide, rfl⟩

/-- C3 (amended): with no current identity, `uploadFile`, `createFolder`,
`createDocument` and `addNote` resolve silently with no remote call and no
store change, while `updateDocument`, `deleteFile` (for an id in the local
collection), `toggleStar` (likewise), `shareFile`, `updateNote` and
`deleteNote` perform no identity check at all and attempt their remote call
regardless; no operation rejects with an auth error. -/
theorem write_ops_no_auth_gate
    (folder pid : Option String) (uenv : UploadEnv) (ienv : InsertEnv)
    (fstore files : List FileItem) (nstore : List NoteDoc)
    (input : UploadInput) (nm ct ttl colr rcpt id : String) (labs : List String)
    (ocol : Option String) (olabs : Option (List String)) (opin : Option Bool)
    (now : Timestamp) (f : FileItem)
    (hfind : files.find? (fun r => r.id == id) = some f) :
    uploadFile none folder uenv fstore input pid = (OpResult.resolved, fstore, []) ∧
    createFolder none folder ienv fstore nm pid = (OpResult.resolved, fstore, []) ∧
    createDocument none folder ienv fstore nm ct pid = (OpResult.resolved, fstore, []) ∧
    addNote none ienv nstore ttl ct colr labs = (OpResult.resolved, nstore, []) ∧
    (updateDocument none fstore id ct now).2.2 = [RemoteEv.dbUpdate "files" id] ∧
    ((deleteFile none files fstore id).2.2).head? =
      some (RemoteEv.dbDelete "files" id) ∧
    (toggleStar none files fstore id).2.2 = [RemoteEv.dbUpdate "files" id] ∧
    (shareFile none fstore id rcpt).2.2 = [RemoteEv.dbUpdate "files" id] ∧
    (updateNote none nstore id ttl ct ocol olabs opin now).2.2 =
      [RemoteEv.dbUpdate "notes" id] ∧
    (deleteNote none nstore id).2.2 = [RemoteEv.dbDelete "notes" id] := by
  refine ⟨rfl, rfl, rfl, rfl, rfl, ?_, ?_, rfl, rfl, rfl⟩
  · simp [deleteFile, hfind]
  · simp [toggleStar, hfind]

/-- C3 witness: the no-identity behaviour of every write operation at
concrete inputs, with `sampleDoc` present in the local collection. -/
theorem write_ops_no_auth_gate_witness :
    [sampleDoc].find? (fun r => r.id == "d1") = some sampleDoc ∧
    (uploadFile none none sampleFailEnv [samplePhoto] samplePng none =
        (OpResult.resolved, [samplePhoto], []) ∧
      createFolder none none sampleInsertEnv [samplePhoto] "New Folder" none =
        (OpResult.resolved, [samplePhoto], []) ∧
      createDocument none none sampleInsertEnv [samplePhoto] "New Folder" "body" none =
        (OpResult.resolved, [samplePhoto], []) ∧
      addNote none sampleInsertEnv [sampleNote] "T" "body" "#ffffff" [] =
        (OpResult.resolved, [sampleNote], []) ∧
      (updateDocument none [samplePhoto] "d1" "body" ⟨9⟩).2.2 =
        [RemoteEv.dbUpdate "files" "d1"] ∧
      ((deleteFile none [sampleDoc] [samplePhoto] "d1").2.2).head? =
        some (RemoteEv.dbDelete "files" "d1") ∧
      (toggleStar none [sampleDoc] [samplePhoto] "d1").2.2 =
        [RemoteEv.dbUpdate "files" "d1"] ∧
      (shareFile none [samplePhoto] "d1" "bob").2.2 =
        [RemoteEv.dbUpdate "files" "d1"] ∧
      (updateNote none [sampleNote] "d1" "T" "body" none none none ⟨9⟩).2.2 =
        [RemoteEv.dbUpdate "notes" "d1"] ∧
      (deleteNote none [sampleNote] "d1").2.2 = [RemoteEv.dbDelete "notes" "d1"]) :=
  ⟨by decide, write_ops_no_auth_gate none none sampleFailEnv sampleInsertEnv
    [samplePhoto] [sampleDoc] [sampleNote] samplePng "New Folder" "body" "T"
    "#ffffff" "bob" "d1" [] none none none ⟨9⟩ sampleDoc (by decide)⟩

/-- C4 counterexample: sharing a file already shared with "alice" leaves
`sharedWith` as just `["bob"]`, not the previous list with "bob" appended. -/
theorem shareFile_counterexample :
    (shareFile (some "u1") [samplePhoto] "f1" "bob").2.1 =
      [{ samplePhoto with isShared := true, sharedWith := some ["bob"] }] ∧
    (some ["bob"] : Option (List String)) ≠ some (["alice"] ++ ["bob"]) := by
  refine ⟨by decide, by decide⟩

/-- C4 (amended): for a file present in the store, `shareFile` resolves,
sets `isShared := true` and overwrites `sharedWith` with the one-element
list `[recipient]`, discarding any previous entries. -/
theorem shareFile_sets_singleton (cu : Option String) (store : List FileItem)
    (id rcpt : String) (f : FileItem)
    (hf : store.find? (fun r => r.id == id) = some f) :
    (shareFile cu store id rcpt).1 = OpResult.resolved ∧
    (shareFile cu store id rcpt).2.1.find? (fun r => r.id == id) =
      some { f with isShared := true, sharedWith := some [rcpt] } := by
  have h := find?_updateById FileItem.id store id
    (fun x => { x with isShared := true, sharedWith := some [rcpt] })
    (fun _ => rfl) f hf
  exact ⟨h.1, h.2⟩

/-- C4 witness: `shareFile` on the concrete store holding `samplePhoto`. -/
theorem shareFile_sets_singleton_witness :
    [samplePhoto].find? (fun r => r.id == "f1") = some samplePhoto ∧
    ((shareFile (some "u1") [samplePhoto] "f1" "carol").1 = OpResult.resolved ∧
      (shareFile (some "u1") [samplePhoto] "f1" "carol").2.1.find?
        (fun r => r.id == "f1") =
        some { samplePhoto with isShared := true, sharedWith := some ["carol"] }) :=
  ⟨by decide, shareFile_sets_singleton (some "u1") [samplePhoto] "f1" "carol"
    samplePhoto (by decide)⟩

/-- C5 counterexample: navigating to a folder id absent from the loaded
collection updates `currentFolder` but leaves the stale trail, which then
does not end with the current folder. -/
theorem navigate_counterexample :
    (navigateToFolder initialFileProviderState (some "x")).currentFolder = some "x" ∧
    (navigateToFolder initialFileProviderState (some "x")).breadcrumbs = [rootCrumb] ∧
    ((navigateToFolder initialFileProviderState (some "x")).breadcrumbs.getLast?).map
      Crumb.id ≠ some "x" := by
  refine ⟨rfl, rfl, by decide⟩

/-- C5 (amended): `navigateTo(null)` yields exactly the root trail; for a
target found in the loaded collection the trail starts with root, ends with
the target, holds at most one intermediate ancestor and equals `[root, F]`
when the target has no parent; for a target absent from the loaded
collection `currentFolder` is updated but the trail is left unchanged. -/
theorem navigate_breadcrumbs (s : FileProviderState) (fid gid : String) (f : FileItem)
    (hf : s.files.find? (fun x => x.id == fid) = some f)
    (hg : s.files.find? (fun x => x.id == gid) = none) :
    (navigateToFolder s none).currentFolder = none ∧
    (navigateToFolder s none).breadcrumbs = [rootCrumb] ∧
    (navigateToFolder s (some fid)).currentFolder = some fid ∧
    f.id = fid ∧
    (navigateToFolder s (some fid)).breadcrumbs.head? = some rootCrumb ∧
    (navigateToFolder s (some fid)).breadcrumbs.getLast? = some ⟨f.id, f.name⟩ ∧
    (navigateToFolder s (some fid)).breadcrumbs.length ≤ 3 ∧
    (f.parentId = none →
      (navigateToFolder s (some fid)).breadcrumbs = [rootCrumb, ⟨f.id, f.name⟩]) ∧
    (navigateToFolder s (some gid)).currentFolder = some gid ∧
    (navigateToFolder s (some gid)).breadcrumbs = s.breadcrumbs := by
  have hid : f.id = fid := by simpa using List.find?_some hf
  have hbc : (navigateToFolder s (some fid)).breadcrumbs =
      (match f.parentId with
        | none => [rootCrumb]
        | some pid =>
          match s.files.find? (fun x => x.id == pid) with
          | none => [rootCrumb]
          | some parent => [rootCrumb, ⟨parent.id, parent.name⟩]) ++
        [⟨f.id, f.name⟩] := by
    simp [navigateToFolder, hf]
  refine ⟨rfl, rfl, by simp [navigateToFolder, hf], hid, ?_, ?_, ?_, ?_,
    by simp [navigateToFolder, hg], by simp [navigateToFolder, hg]⟩
  · rw [hbc]
    cases hp : f.parentId with
    | none => rfl
    | some pid =>
      cases hq : s.files.find? (fun x => x.id == pid) with
      | none => simp [hq]
      | some parent => simp [hq]
  · rw [hbc]
    cases hp : f.parentId with
    | none => simp
    | some pid =>
      cases hq : s.files.find? (fun x => x.id == pid) with
      | none => simp [hq]
      | some parent => simp [hq]
  · rw [hbc]
    cases hp : f.parentId with
    | none => simp
    | some pid =>
      cases hq : s.files.find? (fun x => x.id == pid) with
      | none => simp [hq]
      | some parent => simp [hq]
  · intro hp
    rw [hbc, hp]
    rfl

/-- C5 witness: navigating inside the concrete two-folder state, with a
found root-level folder and a missing id. -/
theorem navigate_breadcrumbs_witness :
    navigatedState.files.find? (fun x => x.id == "fa") = some sampleFolderA ∧
    navigatedState.files.find? (fun x => x.id == "zz") = none ∧
    ((navigateToFolder navigatedState none).currentFolder = none ∧
      (navigateToFolder navigatedState none).breadcrumbs = [rootCrumb] ∧
      (navigateToFolder navigatedState (some "fa")).currentFolder = some "fa" ∧
      sampleFolderA.id = "fa" ∧
      (navigateToFolder navigatedState (some "fa")).breadcrumbs.head? =
        some rootCrumb ∧
      (navigateToFolder navigatedState (some "fa")).breadcrumbs.getLast? =
        some ⟨sampleFolderA.id, sampleFolderA.name⟩ ∧
      (navigateToFolder navigatedState (some "fa")).breadcrumbs.length ≤ 3 ∧
      (sampleFolderA.parentId = none →
        (navigateToFolder navigatedState (some "fa")).breadcrumbs =
          [rootCrumb, ⟨sampleFolderA.id, sampleFolderA.name⟩]) ∧
      (navigateToFolder navigatedState (some "zz")).currentFolder = some "zz" ∧
      (navigateToFolder navigatedState (some "zz")).breadcrumbs =
        navigatedState.breadcrumbs) :=
  ⟨by decide, by decide,
    navigate_breadcrumbs navigatedState "fa" "zz" sampleFolderA (by decide) (by decide)⟩

/-- Lemma about `toggleStar` on a collection in sync with the store: it resolves and the
record found for the id afterwards is the found record with `isStarred`
negated. -/
theorem toggleStar_echo (cu : Option String) (store : List FileItem) (id : String)
    (f : FileItem) (hf : store.find? (fun r => r.id == id) = some f) :
    (toggleStar cu store store id).1 = OpResult.resolved ∧
    ((toggleStar cu store store id).2.1).find? (fun r => r.id == id) =
      some { f with isStarred := !f.isStarred } := by
  have h := find?_updateById FileItem.id store id
    (fun x => { x with isStarred := !f.isStarred }) (fun _ => rfl) f hf
  constructor
  · simp only [toggleStar, hf]
    exact h.1
  · simp only [toggleStar, hf]
    exact h.2

/-- C9: with each write echoed back through the subscription before the next
call, applying `toggleStar` twice to an id present in the collection
restores the record found for that id — in particular its `isStarred`
flag — to its original value. -/
theorem toggleStar_twice_restores (cu : Option String) (store : List FileItem)
    (id : String) (f : FileItem)
    (hf : store.find? (fun r => r.id == id) = some f) :
    (toggleStar cu store store id).1 = OpResult.resolved ∧
    (toggleStar cu (toggleStar cu store store id).2.1
      (toggleStar cu store store id).2.1 id).1 = OpResult.resolved ∧
    ((toggleStar cu (toggleStar cu store store id).2.1
      (toggleStar cu store store id).2.1 id).2.1).find? (fun r => r.id == id) =
      some f := by
  have t1 := toggleStar_echo cu store id f hf
  have t2 := toggleStar_echo cu ((toggleStar cu store store id).2.1) id
    ({ f with isStarred := !f.isStarred }) t1.2
  refine ⟨t1.1, t2.1, ?_⟩
  rw [t2.2]
  congr 1
  cases f
  simp

/-- C9 witness: toggling the star twice on the concrete starred document. -/
theorem toggleStar_twice_restores_witness :
    [sampleDoc].find? (fun r => r.id == "d1") = some sampleDoc ∧
    ((toggleStar (some "u1") [sampleDoc] [sampleDoc] "d1").1 = OpResult.resolved ∧
      (toggleStar (some "u1") (toggleStar (some "u1") [sampleDoc] [sampleDoc] "d1").2.1
        (toggleStar (some "u1") [sampleDoc] [sampleDoc] "d1").2.1 "d1").1 =
        OpResult.resolved ∧
      ((toggleStar (some "u1") (toggleStar (some "u1") [sampleDoc] [sampleDoc] "d1").2.1
        (toggleStar (some "u1") [sampleDoc] [sampleDoc] "d1").2.1 "d1").2.1).find?
        (fun r => r.id == "d1") = some sampleDoc) :=
  ⟨by decide, toggleStar_twice_restores (some "u1") [sampleDoc] "d1" sampleDoc (by decide)⟩

/-- C10: `updateNote` writes exactly `title`, `content`, a fresh `updatedAt`
and (when supplied) `color`, `labels`, `isPinned`; the stored record keeps
its `checklistItems`, `createdAt`, `userId`, `id`, `aiSummary`,
`aiSuggestions` and `viewMode` unchanged — so checklist edits are never
persisted through `updateNote`. -/
theorem updateNote_frame (cu : Option String) (store : List NoteDoc)
    (id ttl ct : String) (col : Option String) (labs : Option (List String))
    (pin : Option Bool) (now : Timestamp) (n : NoteDoc)
    (hn : store.find? (fun r => r.id == id) = some n) :
    (updateNote cu store id ttl ct col labs pin now).1 = OpResult.resolved ∧
    (updateNote cu store id ttl ct col labs pin now).2.1.find?
      (fun r => r.id == id) = some (updateNoteFields ttl ct col labs pin now n) ∧
    (updateNoteFields ttl ct col labs pin now n).checklistItems = n.checklistItems ∧
    (updateNoteFields ttl ct col labs pin now n).createdAt = n.createdAt ∧
    (updateNoteFields ttl ct col labs pin now n).userId = n.userId ∧
    (updateNoteFields ttl ct col labs pin now n).id = n.id ∧
    (updateNoteFields ttl ct col labs pin now n).aiSummary = n.aiSummary ∧
    (updateNoteFields ttl ct col labs pin now n).aiSuggestions = n.aiSuggestions ∧
    (updateNoteFields ttl ct col labs pin now n).viewMode = n.viewMode ∧
    (updateNoteFields ttl ct col labs pin now n).title = ttl ∧
    (updateNoteFields ttl ct col labs pin now n).content = ct ∧
    (updateNoteFields ttl ct col labs pin now n).updatedAt = now := by
  have h := find?_updateById NoteDoc.id store id
    (updateNoteFields ttl ct col labs pin now) (fun _ => rfl) n hn
  exact ⟨h.1, h.2, rfl, rfl, rfl, rfl, rfl, rfl, rfl, rfl, rfl, rfl⟩

/-- C10 witness: updating the concrete note (which carries a checklist item)
with a supplied color but no labels or pin change. -/
theorem updateNote_frame_witness :
    [sampleNote].find? (fun r => r.id == "n1") = some sampleNote ∧
    ((updateNote (some "u1") [sampleNote] "n1" "t2" "c2" (some "#f28b82") none none
        ⟨9⟩).1 = OpResult.resolved ∧
      (updateNote (some "u1") [sampleNote] "n1" "t2" "c2" (some "#f28b82") none none
        ⟨9⟩).2.1.find? (fun r => r.id == "n1") =
        some (updateNoteFields "t2" "c2" (some "#f28b82") none none ⟨9⟩ sampleNote) ∧
      (updateNoteFields "t2" "c2" (some "#f28b82") none none ⟨9⟩
        sampleNote).checklistItems = sampleNote.checklistItems ∧
      (updateNoteFields "t2" "c2" (some "#f28b82") none none ⟨9⟩
        sampleNote).createdAt = sampleNote.createdAt ∧
      (updateNoteFields "t2" "c2" (some "#f28b82") none none ⟨9⟩
        sampleNote).userId = sampleNote.userId ∧
      (updateNoteFields "t2" "c2" (some "#f28b82") none none ⟨9⟩
        sampleNote).id = sampleNote.id ∧
      (updateNoteFields "t2" "c2" (some "#f28b82") none none ⟨9⟩
        sampleNote).aiSummary = sampleNote.aiSummary ∧
      (updateNoteFields "t2" "c2" (some "#f28b82") none none ⟨9⟩
        sampleNote).aiSuggestions = sampleNote.aiSuggestions ∧
      (updateNoteFields "t2" "c2" (some "#f28b82") none none ⟨9⟩
        sampleNote).viewMode = sampleNote.viewMode ∧
      (updateNoteFields "t2" "c2" (some "#f28b82") none none ⟨9⟩
        sampleNote).title = "t2" ∧
      (updateNoteFields "t2" "c2" (some "#f28b82") none none ⟨9⟩
        sampleNote).content = "c2" ∧
      (updateNoteFields "t2" "c2" (some "#f28b82") none none ⟨9⟩
        sampleNote).updatedAt = ⟨9⟩) :=
  ⟨by decide, updateNote_frame (some "u1") [sampleNote] "n1" "t2" "c2"
    (some "#f28b82") none none ⟨9⟩ sampleNote (by decide)⟩
